import Mathlib

/-!
Formal model of the FloatChat backend (floatchat repository): the NL-to-SQL
query engine (pipeline, validator, executor), the Redis-backed conversation
context and result cache, the geography resolver, and the chat API
orchestration (SSE query turn, confirmation endpoint, message pagination).

Each definition is a shallow embedding of the corresponding Python function
under `floatchat/backend/app`.  External-library behaviours (the sqlglot
parser, the OpenAI client, the `re` regex engine, json serialisation, md5)
are taken as explicit function parameters of the embedded definitions; the
repository's own logic is translated line by line.

Conventions:
  - Python `str` is Lean `String`; character-level operations (`strip`,
    `rstrip`, `upper`, `lower`, slicing, substring test) are modelled on
    `String.data` with the ASCII semantics the source exercises.
  - Python `None` is `Option.none`; Python truthiness of an optional string
    (`if not s`) is `s.getD "" = ""`.
  - Machine integers do not occur; Python ints are `Int` (or `Nat` where the
    source guarantees non-negativity).
-/

/-! ## Python string primitives -/

/-- Characters stripped by Python's `str.strip()` with no argument
(ASCII whitespace: space, tab, newline, vertical tab, form feed,
carriage return). -/
def isPySpace (c : Char) : Bool :=
  c == ' ' || c == '\t' || c == '\n' || c == '\x0b' || c == '\x0c' || c == '\r'

/-- Python `s.strip()` : drop leading and trailing whitespace. -/
def pyStrip (s : String) : String :=
  ⟨((s.data.dropWhile isPySpace).reverse.dropWhile isPySpace).reverse⟩

/-- Python `s.rstrip(chars)` for a single-character `chars` set:
drop every trailing occurrence of `c`. -/
def pyRStripChar (s : String) (c : Char) : String :=
  ⟨(s.data.reverse.dropWhile (fun d => d == c)).reverse⟩

/-- Python `s.upper()` on the ASCII alphabet (the source only upper-cases
SQL text, which is ASCII). -/
def pyUpper (s : String) : String := ⟨s.data.map Char.toUpper⟩

/-- Python `s.lower()` on the ASCII alphabet. -/
def pyLower (s : String) : String := ⟨s.data.map Char.toLower⟩

/-- Is `n` a prefix of `h` (boolean, by character equality)? -/
def listStartsWith : List Char → List Char → Bool
  | [], _ => true
  | _ :: _, [] => false
  | a :: as, b :: bs => a == b && listStartsWith as bs

/-- Does `needle` occur contiguously inside the list? -/
def listInfixOf (needle : List Char) : List Char → Bool
  | [] => listStartsWith needle []
  | c :: cs => listStartsWith needle (c :: cs) || listInfixOf needle cs

/-- Python `needle in hay` on strings: contiguous-substring test. -/
def pyContains (hay needle : String) : Bool := listInfixOf needle.data hay.data

/-- Python `xs[i:]` on lists: a negative start counts from the end (clamped
at 0), a non-negative start drops that many elements.  In particular
`xs[-0:]` is the whole list, exactly as in Python where `-0 == 0`. -/
def pySliceFrom {α : Type} (i : Int) (xs : List α) : List α :=
  if i < 0 then xs.drop ((xs.length : Int) + i).toNat else xs.drop i.toNat

/-- Python `xs[-n:]` on character lists (`s[-80:]` in the executor). -/
def pyTakeLast (n : Nat) (xs : List Char) : List Char := xs.drop (xs.length - n)

/-! ## Executor (`app/query/executor.py`)

`execute_sql` runs validated SQL on the readonly session.  The database
round-trip `db.execute(text(...))` is the external part: it is passed in as
`dbq`, a map from the executed SQL text to either an error message (the
raised exception, rendered) or a pair (column names, raw rows).  Row dicts
are carried opaquely as a type parameter `ρ`. -/

structure ExecutionResult (ρ : Type) where
  columns : List String := []
  rows : List ρ := []
  row_count : Nat := 0
  truncated : Bool := false
  error : Option String := none
deriving Repr

/-- Model of `_has_limit(sql)` : strip whitespace and trailing semicolons, upper-case
the last 80 characters, and look for the substring `LIMIT`. -/
def has_limit (sql : String) : Bool :=
  let stripped := pyStrip (pyRStripChar (pyStrip sql) ';')
  let tail := pyUpper ⟨pyTakeLast 80 stripped.data⟩
  pyContains tail "LIMIT"

/-- Model of `_apply_limit(sql, max_rows)` : wrap as a subquery with an outer LIMIT
unless the SQL already carries one. -/
def apply_limit (sql : String) (max_rows : Nat) : String :=
  if has_limit sql then sql
  else
    let clean := pyStrip (pyRStripChar (pyStrip sql) ';')
    "SELECT * FROM (" ++ clean ++ ") AS _q LIMIT " ++ toString max_rows

/-- Model of `execute_sql(sql, db, max_rows)` : apply the limit policy, run the
effective SQL, and mark the result truncated when the raw row count reaches
the cap and the original SQL had no LIMIT of its own. -/
def execute_sql {ρ : Type}
    (dbq : String → Except String (List String × List ρ))
    (sql : String) (max_rows : Nat) : ExecutionResult ρ :=
  let effective_sql := apply_limit sql max_rows
  match dbq effective_sql with
  | .error exc => { error := some ("Execution error: " ++ exc) }
  | .ok (cols, raw_rows) =>
    let truncated := decide (raw_rows.length ≥ max_rows) && !(has_limit sql)
    { columns := cols
      rows := raw_rows
      row_count := raw_rows.length
      truncated := truncated }

/-- C3: when the tail of the SQL (last 80 characters, after stripping the
trailing semicolon) contains `LIMIT`, the executor runs the SQL verbatim and
never reports truncation; otherwise it runs the SQL wrapped as a subquery
with an outer `LIMIT max_rows`, and (on a successful execution) reports
truncation exactly when the returned row count reaches the cap. -/
theorem execute_sql_limit_policy {ρ : Type}
    (dbq : String → Except String (List String × List ρ))
    (sql : String) (max_rows : Nat) :
    (has_limit sql = true →
      apply_limit sql max_rows = sql ∧
      (execute_sql dbq sql max_rows).truncated = false)
    ∧ (has_limit sql = false →
      apply_limit sql max_rows =
        "SELECT * FROM (" ++ pyStrip (pyRStripChar (pyStrip sql) ';') ++
          ") AS _q LIMIT " ++ toString max_rows ∧
      ∀ cols rows, dbq (apply_limit sql max_rows) = Except.ok (cols, rows) →
        (execute_sql dbq sql max_rows).row_count = rows.length ∧
        ((execute_sql dbq sql max_rows).truncated = true ↔ max_rows ≤ rows.length)) := by
  constructor
  · intro h
    refine ⟨by simp [apply_limit, h], ?_⟩
    unfold execute_sql
    cases hdb : dbq (apply_limit sql max_rows) with
    | error e => simp [hdb]
    | ok pr => cases pr with
      | mk cols rows => simp [hdb, h]
  · intro h
    refine ⟨by simp [apply_limit, h], ?_⟩
    intro cols rows hdb
    unfold execute_sql
    simp [hdb, h]

/-! ## Result cache (`app/cache/redis_cache.py`)

The Redis string store is modelled as an association list from key to
(value, absolute expiry time); `SET key val EX ttl` at time `now` installs
expiry `now + ttl`, and a `GET` at time `t` sees the value only while
`t < expiry`.  The md5 hex digest and the json `dumps`/`loads` pair are
external-library functions, passed in as parameters. -/

structure RedisEntry where
  value : String
  expiresAt : Nat
deriving Repr, DecidableEq

/-- A Redis string keyspace: key, value and expiry time. -/
abbrev RedisStore := List (String × RedisEntry)

def redisLookup (st : RedisStore) (k : String) : Option RedisEntry :=
  (st.find? (fun kv => kv.1 == k)).map Prod.snd

/-- Model of `redis.set(key, value, ex=ttl)` executed at time `now`. -/
def redisSetEx (st : RedisStore) (k v : String) (now ttl : Nat) : RedisStore :=
  (k, ⟨v, now + ttl⟩) :: st.filter (fun kv => !(kv.1 == k))

/-- Model of `redis.get(key)` executed at time `now` (an expired key reads as nil). -/
def redisGetAt (st : RedisStore) (k : String) (now : Nat) : Option String :=
  match redisLookup st k with
  | some e => if now < e.expiresAt then some e.value else none
  | none => none

/-- Model of `_make_cache_key(sql_string)` : `query_cache:` + md5 hex digest. -/
def make_cache_key (md5hex : String → String) (sql_string : String) : String :=
  "query_cache:" ++ md5hex sql_string

/-- Model of `get_cached_result(sql_string, redis_client)` at time `now`;
`loads` is `json.loads` on the stored payload. -/
def get_cached_result {ρ : Type} (md5hex : String → String)
    (loads : String → Option (List ρ))
    (st : RedisStore) (sql_string : String) (now : Nat) : Option (List ρ) :=
  match redisGetAt st (make_cache_key md5hex sql_string) now with
  | none => none
  | some raw => loads raw

/-- Model of `set_cached_result(sql_string, result, redis_client)` at time `now`:
refuses to store more than `max_rows` rows (returning the skipped signal
`false`), otherwise stores `dumps result` under the cache key with the
configured TTL and returns `true`.  Result: (new store, return value). -/
def set_cached_result {ρ : Type} (md5hex : String → String)
    (dumps : List ρ → String)
    (st : RedisStore) (sql_string : String) (result : List ρ)
    (max_rows ttl now : Nat) : RedisStore × Bool :=
  if result.length > max_rows then (st, false)
  else (redisSetEx st (make_cache_key md5hex sql_string) (dumps result) now ttl, true)

/-- C8: a result within the row ceiling is stored and read back (through the
json round trip) by any get within the TTL; an oversized result is skipped
(`false`, store unchanged) and a key that was never stored still misses. -/
theorem cache_set_get_roundtrip {ρ : Type} (md5hex : String → String)
    (dumps : List ρ → String) (loads : String → Option (List ρ))
    (st : RedisStore) (k : String) (v : List ρ)
    (max_rows ttl now t : Nat) :
    (v.length ≤ max_rows →
      (set_cached_result md5hex dumps st k v max_rows ttl now).2 = true ∧
      (loads (dumps v) = some v → t < now + ttl →
        get_cached_result md5hex loads
          (set_cached_result md5hex dumps st k v max_rows ttl now).1 k t = some v))
    ∧ (v.length > max_rows →
      set_cached_result md5hex dumps st k v max_rows ttl now = (st, false) ∧
      ∀ k2, redisLookup st (make_cache_key md5hex k2) = none →
        get_cached_result md5hex loads
          (set_cached_result md5hex dumps st k v max_rows ttl now).1 k2 t = none) := by
  constructor
  · intro hlen
    have hif : ¬ v.length > max_rows := by omega
    constructor
    · simp [set_cached_result, hif]
    · intro hround ht
      simp [set_cached_result, hif, get_cached_result, redisGetAt, redisLookup,
        redisSetEx, ht, hround]
  · intro hlen
    constructor
    · simp [set_cached_result, hlen]
    · intro k2 hmiss
      simp [set_cached_result, hlen, get_cached_result, redisGetAt, hmiss]

/-! ## Conversation context (`app/query/context.py`)

The Redis key `query:context:{session_id}` holds a json-encoded list of turn
dicts.  Its state is modelled as `Option (List ContextTurn)`: `none` stands
for a missing key (or a payload that does not decode to a list — both read
as the empty context in the source). -/

structure ContextTurn where
  role : String := "user"
  content : String := ""
  sql : Option String := none
  row_count : Option Int := none
deriving Repr, DecidableEq

/-- Model of `get_context(redis_client, session_id)` : the stored list, or `[]` when
the key is missing / not a list / Redis is unavailable. -/
def get_context (state : Option (List ContextTurn)) : List ContextTurn :=
  state.getD []

/-- Model of `append_context(redis_client, session_id, turn, settings)` : load the
current list, append the new turn, trim with the Python slice
`turns[-max_turns:]` when the length exceeds `max_turns`, write back.
`max_turns` is `settings.QUERY_CONTEXT_MAX_TURNS`. -/
def append_context (state : Option (List ContextTurn)) (turn : ContextTurn)
    (max_turns : Int) : List ContextTurn :=
  let turns := (state.getD []) ++ [turn]
  if (turns.length : Int) > max_turns then pySliceFrom (-max_turns) turns
  else turns

/-- The key state after a sequence of `append_context` calls. -/
def contextAfter (state : Option (List ContextTurn))
    (appends : List ContextTurn) (max_turns : Int) : Option (List ContextTurn) :=
  appends.foldl (fun st turn => some (append_context st turn max_turns)) state

/-- One append never leaves more than `max_turns` turns (for a positive
configured maximum). -/
theorem append_context_length_le (state : Option (List ContextTurn))
    (turn : ContextTurn) (max_turns : Int) (h : 1 ≤ max_turns) :
    ((append_context state turn max_turns).length : Int) ≤ max_turns := by
  unfold append_context
  set turns := (state.getD []) ++ [turn] with hturns
  by_cases hgt : (turns.length : Int) > max_turns
  · have hneg : (-max_turns) < 0 := by omega
    simp only [hgt, if_pos, pySliceFrom, hneg, if_true]
    have hlen : ((turns.length : Int) + -max_turns).toNat
        = turns.length - max_turns.toNat := by omega
    rw [hlen, List.length_drop]
    omega
  · simp only [hgt, if_neg, ite_false]
    omega

/-- C7: after any non-empty sequence of context appends (from any starting
key state), every list read from the store has length at most the configured
maximum number of turns. -/
theorem context_length_bounded (state0 : Option (List ContextTurn))
    (turn : ContextTurn) (rest : List ContextTurn) (max_turns : Int)
    (h : 1 ≤ max_turns) :
    (((contextAfter state0 (turn :: rest) max_turns).getD []).length : Int)
      ≤ max_turns := by
  induction rest generalizing state0 turn with
  | nil =>
    simpa [contextAfter] using append_context_length_le state0 turn max_turns h
  | cons turn2 rest2 ih =>
    exact ih (some (append_context state0 turn max_turns)) turn2

/-- Witness for C7 at the configured default `QUERY_CONTEXT_MAX_TURNS = 20`:
one append of one turn to an empty store stays within the bound. -/
theorem context_length_bounded_witness :
    (((contextAfter none [{ role := "user", content := "hi" }] 20).getD
      []).length : Int) ≤ 20 :=
  context_length_bounded none { role := "user", content := "hi" } [] 20
    (by norm_num)

/-! ## Geography resolver (`app/query/geography.py`)

The lookup table (loaded from `geography_lookup.json`, not shipped with the
backend sources) is modelled as an association list from region name to an
opaque bounding-box payload `α`; `_load_geography` lower-cases and strips
the keys through a Python dict comprehension (later duplicates overwrite in
place, first-insertion order is kept).  `resolve_geography` scans the keys
sorted by length, longest first (Python `sorted(keys, key=len,
reverse=True)`, a stable descending sort), and returns the first key that is
a substring of the lower-cased query, with its bounding box. -/

/-- Python dict assignment `d[k] = v` on an insertion-ordered association
list: overwrite in place when the key exists, else append. -/
def dictInsert {α : Type} (acc : List (String × α)) (k : String) (v : α) :
    List (String × α) :=
  if acc.any (fun kv => kv.1 == k) then
    acc.map (fun kv => if kv.1 == k then (kv.1, v) else kv)
  else acc ++ [(k, v)]

/-- Model of `_load_geography` : the dict comprehension
`\x7bk.lower().strip(): v for k, v in data.items()\x7d`. -/
def load_geography {α : Type} (data : List (String × α)) : List (String × α) :=
  data.foldl (fun acc kv => dictInsert acc (pyStrip (pyLower kv.1)) kv.2) []

/-- Python `d[k]` / `k in d` on the association-list dict. -/
def assocLookup {α : Type} (table : List (String × α)) (k : String) : Option α :=
  (table.find? (fun kv => kv.1 == k)).map Prod.snd

/-- Stable insertion (after every element of length ≥ the new element's):
the building block of the stable descending sort. -/
def geoInsert (x : String) : List String → List String
  | [] => [x]
  | y :: ys => if x.length ≤ y.length then y :: geoInsert x ys else x :: y :: ys

/-- Python `sorted(keys, key=len, reverse=True)` : stable sort by key
length, longest first. -/
def sortByLenDesc (l : List String) : List String :=
  l.foldl (fun acc x => geoInsert x acc) []

/-- Model of `resolve_geography(query)` over a loaded lookup `table` : `none` for an
empty table or empty query, otherwise the first key (longest first) that is
a substring of the lower-cased query, paired with its bounding box. -/
def resolve_geography {α : Type} (table : List (String × α)) (query : String) :
    Option (String × α) :=
  if table.isEmpty || query == "" then none
  else
    let query_lower := pyLower query
    match (sortByLenDesc (table.map Prod.fst)).find?
        (fun name => pyContains query_lower name) with
    | some name =>
      match assocLookup table name with
      | some bbox => some (name, bbox)
      | none => none
    | none => none

/-! Facts about the string primitives and the sort. -/

theorem listStartsWith_iff (n h : List Char) :
    listStartsWith n h = true ↔ n <+: h := by
  induction n generalizing h with
  | nil => simp [listStartsWith]
  | cons a as ih =>
    cases h with
    | nil => simp [listStartsWith]
    | cons b bs =>
      simp only [listStartsWith, Bool.and_eq_true, beq_iff_eq, ih,
        List.cons_prefix_cons]

theorem listInfixOf_iff (n h : List Char) :
    listInfixOf n h = true ↔ n <:+: h := by
  induction h with
  | nil => simp [listInfixOf, listStartsWith_iff, List.infix_nil, List.prefix_nil]
  | cons c cs ih =>
    simp only [listInfixOf, Bool.or_eq_true, listStartsWith_iff, ih,
      List.infix_cons_iff]

theorem pyContains_iff (hay needle : String) :
    pyContains hay needle = true ↔ needle.data <:+: hay.data :=
  listInfixOf_iff needle.data hay.data

theorem geoInsert_perm (x : String) (l : List String) :
    (geoInsert x l).Perm (x :: l) := by
  induction l with
  | nil => simp [geoInsert]
  | cons y ys ih =>
    by_cases h : x.length ≤ y.length
    · simp only [geoInsert, if_pos h]
      exact ((ih.cons y).trans (List.Perm.swap x y ys))
    · simp [geoInsert, if_neg h]

theorem geoInsert_sorted (x : String) (l : List String)
    (hl : l.Pairwise (fun a b => b.length ≤ a.length)) :
    (geoInsert x l).Pairwise (fun a b => b.length ≤ a.length) := by
  induction l with
  | nil => simp [geoInsert]
  | cons y ys ih =>
    rcases List.pairwise_cons.mp hl with ⟨hy, hys⟩
    by_cases h : x.length ≤ y.length
    · simp only [geoInsert, if_pos h]
      refine List.pairwise_cons.mpr ⟨?_, ih hys⟩
      intro z hz
      rcases List.mem_cons.mp ((geoInsert_perm x ys).mem_iff.mp hz) with rfl | hz
      · exact h
      · exact hy z hz
    · simp only [geoInsert, if_neg h]
      refine List.pairwise_cons.mpr ⟨?_, hl⟩
      intro z hz
      rcases List.mem_cons.mp hz with rfl | hz
      · exact le_of_lt (not_le.mp h)
      · exact le_trans (hy z hz) (le_of_lt (not_le.mp h))

theorem sortByLenDesc_perm (l : List String) : (sortByLenDesc l).Perm l := by
  suffices h : ∀ acc : List String,
      (l.foldl (fun acc x => geoInsert x acc) acc).Perm (acc ++ l) by
    simpa using h []
  induction l with
  | nil => simp
  | cons x xs ih =>
    intro acc
    simp only [List.foldl_cons]
    refine (ih (geoInsert x acc)).trans ?_
    refine (((geoInsert_perm x acc).append_right xs)).trans ?_
    exact List.perm_middle.symm

theorem sortByLenDesc_sorted (l : List String) :
    (sortByLenDesc l).Pairwise (fun a b => b.length ≤ a.length) := by
  suffices h : ∀ acc : List String,
      acc.Pairwise (fun a b => b.length ≤ a.length) →
      (l.foldl (fun acc x => geoInsert x acc) acc).Pairwise
        (fun a b => b.length ≤ a.length) by
    exact h [] (by simp)
  induction l with
  | nil => intro acc hacc; simpa using hacc
  | cons x xs ih =>
    intro acc hacc
    exact ih _ (geoInsert_sorted x acc hacc)

/-- In a list sorted by length descending, a match that beats every other
match in length is the first match. -/
theorem find_first_sorted (l : List String) (p : String → Bool) (k : String)
    (hsort : l.Pairwise (fun a b => b.length ≤ a.length))
    (hk : k ∈ l) (hpk : p k = true)
    (hmax : ∀ x ∈ l, p x = true → x ≠ k → x.length < k.length) :
    l.find? p = some k := by
  induction l with
  | nil => cases hk
  | cons y ys ih =>
    rcases List.pairwise_cons.mp hsort with ⟨hy, hys⟩
    by_cases hpy : p y = true
    · by_cases hyk : y = k
      · subst hyk
        simp [List.find?, hpk]
      · exfalso
        have hylt : y.length < k.length :=
          hmax y (List.mem_cons_self y ys) hpy hyk
        have hkys : k ∈ ys := by
          rcases List.mem_cons.mp hk with rfl | hmem
          · exact absurd rfl hyk
          · exact hmem
        exact absurd (hy k hkys) (by omega)
    · have hyk : y ≠ k := fun he => hpy (he ▸ hpk)
      have hkys : k ∈ ys := by
        rcases List.mem_cons.mp hk with rfl | hmem
        · exact absurd rfl hyk
        · exact hmem
      have : ys.find? p = some k :=
        ih hys hkys (fun x hx hpx hxk => hmax x (List.mem_cons_of_mem y hx) hpx hxk)
      simpa [List.find?, hpy] using this

/-- C9 (amended): (a) every non-empty lower-cased key of the lookup resolves
to itself with its own bounding box; (b) whenever a key `k1` matches the
utterance and every other matching key is strictly shorter, the resolver
returns `k1` — the longest matching key wins. -/
theorem resolve_geography_longest_match :
    (∀ (α : Type) (table : List (String × α)) (k : String) (bbox : α),
      assocLookup table k = some bbox → k ≠ "" → pyLower k = k →
      resolve_geography table k = some (k, bbox))
    ∧ (∀ (α : Type) (table : List (String × α)) (query k1 : String) (bbox1 : α),
      query ≠ "" → assocLookup table k1 = some bbox1 →
      pyContains (pyLower query) k1 = true →
      (∀ x ∈ table.map Prod.fst, pyContains (pyLower query) x = true →
        x ≠ k1 → x.length < k1.length) →
      resolve_geography table query = some (k1, bbox1)) := by
  have core : ∀ (α : Type) (table : List (String × α)) (query k1 : String)
      (bbox1 : α), query ≠ "" → assocLookup table k1 = some bbox1 →
      pyContains (pyLower query) k1 = true →
      (∀ x ∈ table.map Prod.fst, pyContains (pyLower query) x = true →
        x ≠ k1 → x.length < k1.length) →
      resolve_geography table query = some (k1, bbox1) := by
    intro α table query k1 bbox1 hq hlook hmatch hmax
    have hk1mem : k1 ∈ table.map Prod.fst := by
      have h1 : ∃ kv, table.find? (fun kv => kv.1 == k1) = some kv ∧
          kv.2 = bbox1 :=
        Option.map_eq_some'.mp (by simpa [assocLookup] using hlook)
      rcases h1 with ⟨kv, hfind, _⟩
      have hmem := List.mem_of_find?_eq_some hfind
      have hkey : kv.1 = k1 := by
        have := List.find?_some hfind
        simpa using this
      exact hkey ▸ List.mem_map_of_mem Prod.fst hmem
    have htne : table ≠ [] := by
      intro h
      rw [h] at hk1mem
      simp at hk1mem
    have hfind : (sortByLenDesc (table.map Prod.fst)).find?
        (fun name => pyContains (pyLower query) name) = some k1 := by
      refine find_first_sorted _ _ k1 (sortByLenDesc_sorted _) ?_ hmatch ?_
      · exact (sortByLenDesc_perm _).mem_iff.mpr hk1mem
      · intro x hx hpx hxk
        exact hmax x ((sortByLenDesc_perm _).mem_iff.mp hx) hpx hxk
    have hempty : table.isEmpty = false := by
      cases table with
      | nil => exact absurd rfl htne
      | cons a l => rfl
    unfold resolve_geography
    simp only [hempty, Bool.false_or]
    have hqe : (query == "") = false := by
      simp [hq]
    simp [hqe, hfind, hlook]
  constructor
  · intro α table k bbox hlook hne hlow
    refine core α table k k bbox hne hlook ?_ ?_
    · rw [hlow]
      exact (pyContains_iff k k).mpr (List.infix_refl k.data)
    · intro x hx hpx hxk
      rw [hlow] at hpx
      have hinf : x.data <:+: k.data := (pyContains_iff k x).mp hpx
      have hle : x.data.length ≤ k.data.length := hinf.length_le
      rcases lt_or_eq_of_le hle with hlt | heq
      · exact hlt
      · exfalso
        have := hinf.eq_of_length heq
        apply hxk
        cases x with
        | mk xd =>
          cases k with
          | mk kd =>
            have hdata : xd = kd := by simpa using this
            rw [hdata]
  · exact core

/-- Witness for C9 (amended): with the spec's own example table
(south china sea / china sea / sea), the key "china sea" resolves to itself,
and the utterance "south china sea shore", whose longest matching key is
"south china sea", resolves to that key. -/
theorem resolve_geography_longest_match_witness :
    resolve_geography
      (load_geography [("South China Sea", (0 : Nat)), ("China Sea", 1), ("Sea", 2)])
      "china sea" = some ("china sea", 1)
    ∧ resolve_geography
      (load_geography [("South China Sea", (0 : Nat)), ("China Sea", 1), ("Sea", 2)])
      "south china sea shore" = some ("south china sea", 0) := by
  constructor
  · exact resolve_geography_longest_match.1 Nat _ "china sea" 1
      (by decide) (by decide) (by decide)
  · exact resolve_geography_longest_match.2 Nat _ "south china sea shore"
      "south china sea" 0 (by decide) (by decide) (by decide) (by decide)

/-- C9 (counterexample to the claim as stated): in the spec's own example
table, the utterance "south china sea" contains the lookup keys
"china sea" and "sea", with `len "china sea" > len "sea"`, yet the resolver
does not return "china sea" — a still-longer key also matches and wins. -/
theorem resolve_geography_two_keys_cex :
    pyContains (pyLower "south china sea") "china sea" = true
    ∧ pyContains (pyLower "south china sea") "sea" = true
    ∧ "china sea".length > "sea".length
    ∧ resolve_geography
        (load_geography
          [("South China Sea", (0 : Nat)), ("China Sea", 1), ("Sea", 2)])
        "south china sea" ≠ some ("china sea", 1)
    ∧ resolve_geography
        (load_geography
          [("South China Sea", (0 : Nat)), ("China Sea", 1), ("Sea", 2)])
        "south china sea" = some ("south china sea", 0) := by
  refine ⟨by decide, by decide, by decide, by decide, by decide⟩

/-! ## SQL validator (`app/query/validator.py`)

The sqlglot AST is modelled as a tree of nodes carrying a node kind (the
sqlglot expression class), a `name` (sqlglot's `.name`, the empty string
when absent — used by `Table` and `Anonymous` nodes), an alias (sqlglot's
`.alias`, used by `CTE` nodes) and the child list.  `sqlglot.parse` itself
is external and is passed to `validate_sql` as a parameter `parse`
returning either a raised `ParseError` message or the statement list
(which, as in sqlglot, may contain `None` entries for trailing
semicolons); `render` stands for `node.sql(dialect="postgres")`. -/

inductive SqlKind where
  | select | union | intersect | exceptOp | subquery | cte | withOp
  | insert | update | delete | drop | create | alter | merge | truncateTable
  | grant | revoke | command
  | table | anonymous | column | other
deriving DecidableEq, Repr

inductive Expression where
  | mk (kind : SqlKind) (name : String) (tblAlias : String)
      (children : List Expression)
deriving Repr

def Expression.kind : Expression → SqlKind
  | .mk k _ _ _ => k

def Expression.name : Expression → String
  | .mk _ n _ _ => n

def Expression.tblAlias : Expression → String
  | .mk _ _ a _ => a

def Expression.children : Expression → List Expression
  | .mk _ _ _ cs => cs

mutual
/-- Model of `tree.walk()` : the node itself and every descendant. -/
def Expression.walk : Expression → List Expression
  | .mk k n a cs => .mk k n a cs :: walkList cs
def walkList : List Expression → List Expression
  | [] => []
  | e :: es => e.walk ++ walkList es
end

/-- Model of `tree.find_all(klass)` : all walked nodes of one kind. -/
def Expression.findAll (tree : Expression) (k : SqlKind) : List Expression :=
  tree.walk.filter (fun n => n.kind == k)

/-- Membership of `_READONLY_TYPES` : the statement kinds the validator
accepts at top level. -/
def readonlyKind : SqlKind → Bool
  | .select | .union | .intersect | .exceptOp | .subquery | .cte | .withOp => true
  | _ => false

/-- Membership of `_WRITE_TYPES` : the explicitly forbidden kinds. -/
def writeKind : SqlKind → Bool
  | .insert | .update | .delete | .drop | .create | .alter | .merge
  | .truncateTable | .grant | .revoke | .command => true
  | _ => false

/-- Model of `type(node).__name__` for the error messages. -/
def kindName : SqlKind → String
  | .select => "Select"
  | .union => "Union"
  | .intersect => "Intersect"
  | .exceptOp => "Except"
  | .subquery => "Subquery"
  | .cte => "CTE"
  | .withOp => "With"
  | .insert => "Insert"
  | .update => "Update"
  | .delete => "Delete"
  | .drop => "Drop"
  | .create => "Create"
  | .alter => "Alter"
  | .merge => "Merge"
  | .truncateTable => "TruncateTable"
  | .grant => "Grant"
  | .revoke => "Revoke"
  | .command => "Command"
  | .table => "Table"
  | .anonymous => "Anonymous"
  | .column => "Column"
  | .other => "Expression"

structure ValidationResult where
  valid : Bool
  error : Option String := none
  check_failed : Option String := none
  warnings : List String := []
deriving Repr, DecidableEq

/-- Model of `ALLOWED_TABLES` from `app/query/schema_prompt.py`. -/
def ALLOWED_TABLES : List String :=
  ["floats", "datasets", "profiles", "measurements", "float_positions",
   "ingestion_jobs", "ocean_regions", "dataset_versions",
   "dataset_embeddings", "float_embeddings", "mv_float_latest_position",
   "mv_dataset_stats"]

/-- Model of `_check_readonly(tree)` : the top-level node must be of a read-only
kind, and no walked node may be of a write kind. -/
def check_readonly (tree : Expression) : ValidationResult :=
  if !(readonlyKind tree.kind) then
    { valid := false
      error := some ("Only SELECT statements are allowed. Got: " ++
        kindName tree.kind)
      check_failed := some "readonly" }
  else
    match tree.walk.find? (fun node => writeKind node.kind) with
    | some node =>
      { valid := false
        error := some ("Write operation detected: " ++ kindName node.kind ++
          ". Only SELECT is allowed.")
        check_failed := some "readonly" }
    | none => { valid := true }

/-- Model of `_check_whitelist(tree, allowed_tables)` : every referenced table name
(lower-cased, CTE aliases excluded) must be in the whitelist. -/
def check_whitelist (tree : Expression) (allowed_tables : List String) :
    ValidationResult :=
  let referenced_tables :=
    ((tree.findAll .table).filterMap
      (fun n => if n.name == "" then none else some (pyLower n.name))).eraseDups
  let cte_aliases :=
    ((tree.findAll .cte).filterMap
      (fun n => if n.tblAlias == "" then none else
        some (pyLower n.tblAlias))).eraseDups
  let real_tables := referenced_tables.filter (fun t => !(cte_aliases.contains t))
  let disallowed :=
    real_tables.filter (fun t => !((allowed_tables.map pyLower).contains t))
  if !disallowed.isEmpty then
    { valid := false
      error := some ("Referenced tables not in whitelist: " ++
        String.intercalate ", " (disallowed.mergeSort (fun a b => decide (a ≤ b))))
      check_failed := some "whitelist" }
  else { valid := true }

/-- Model of `_check_geography_casts(tree)` : advisory warnings for PostGIS calls
without the recommended casts; `render` is `node.sql(dialect="postgres")`. -/
def check_geography_casts (render : Expression → String) (tree : Expression) :
    List String :=
  (tree.findAll .anonymous).foldl
    (fun warnings func_node =>
      let func_name := pyLower func_node.name
      if func_name == "st_dwithin" || func_name == "st_makepoint" ||
          func_name == "st_contains" || func_name == "st_within" then
        let sql_fragment := render func_node
        let warnings :=
          if func_name == "st_dwithin" &&
              !(pyContains sql_fragment "::geography") then
            warnings ++ ["ST_DWithin used without ::geography cast. " ++
              "For distance calculations, cast arguments to ::geography."]
          else warnings
        let warnings :=
          if (func_name == "st_contains" || func_name == "st_within") &&
              !(pyContains sql_fragment "::geometry") then
            warnings ++ [pyUpper func_name ++
              " used without ::geometry cast. " ++
              "For containment checks, cast arguments to ::geometry."]
          else warnings
        warnings
      else warnings) []

/-- Model of `validate_sql(sql, allowed_tables)` : the 3-check pipeline — syntax
(parse, single statement), read-only, table whitelist — plus the advisory
geography-cast warnings. -/
def validate_sql (parse : String → Except String (List (Option Expression)))
    (render : Expression → String) (sql : String)
    (allowed_tables : List String) : ValidationResult :=
  match parse sql with
  | .error exc =>
    { valid := false
      error := some ("SQL syntax error: " ++ exc)
      check_failed := some "syntax" }
  | .ok parsed =>
    if parsed.isEmpty then
      { valid := false
        error := some "Empty SQL — no statements parsed."
        check_failed := some "syntax" }
    else
      match parsed.filterMap id with
      | [tree] =>
        let readonly_result := check_readonly tree
        if !readonly_result.valid then readonly_result
        else
          let whitelist_result := check_whitelist tree allowed_tables
          if !whitelist_result.valid then whitelist_result
          else { valid := true, warnings := check_geography_casts render tree }
      | statements =>
        { valid := false
          error := some ("Only a single SELECT statement is allowed. Got " ++
            toString statements.length ++ " statements.")
          check_failed := some "syntax" }

/-- C2: the read-only check fails — with check tag "readonly" — exactly when
the top-level node kind is not read-only or some walked node has a write
kind; the decision is a function of the walked node kinds alone. -/
theorem check_readonly_ast_characterization (tree : Expression) :
    ((check_readonly tree).valid = false ↔
      (readonlyKind tree.kind = false ∨
        ∃ k ∈ tree.walk.map Expression.kind, writeKind k = true))
    ∧ ((check_readonly tree).valid = false →
      (check_readonly tree).check_failed = some "readonly") := by
  by_cases hro : readonlyKind tree.kind = true
  · cases hfind : tree.walk.find? (fun node => writeKind node.kind) with
    | some node =>
      have hmem := List.mem_of_find?_eq_some hfind
      have hwk : writeKind node.kind = true := by
        simpa using List.find?_some hfind
      have hv : (check_readonly tree).valid = false ∧
          (check_readonly tree).check_failed = some "readonly" := by
        simp [check_readonly, hro, hfind]
      exact ⟨⟨fun _ =>
        Or.inr ⟨node.kind, List.mem_map_of_mem Expression.kind hmem, hwk⟩,
        fun _ => hv.1⟩, fun _ => hv.2⟩
    | none =>
      have hnone := List.find?_eq_none.mp hfind
      have hv : (check_readonly tree).valid = true := by
        simp [check_readonly, hro, hfind]
      constructor
      · constructor
        · intro h
          rw [hv] at h
          simp at h
        · intro h
          rcases h with h | ⟨k, hk, hwk⟩
          · rw [hro] at h
            simp at h
          · rcases List.mem_map.mp hk with ⟨node, hmem2, rfl⟩
            exact absurd hwk (by simpa using hnone node hmem2)
      · intro h
        rw [hv] at h
        simp at h
  · have hro' : readonlyKind tree.kind = false := by
      simpa using hro
    have hv : (check_readonly tree).valid = false ∧
        (check_readonly tree).check_failed = some "readonly" := by
      simp [check_readonly, hro']
    exact ⟨⟨fun _ => Or.inl hro', fun _ => hv.1⟩, fun _ => hv.2⟩

/-! ## NL-to-SQL pipeline (`app/query/pipeline.py`)

External parts passed as parameters: `parse`/`render` (sqlglot, as for the
validator), `llm` (the chat-completion call of attempt `n` on a message
list: either the response text or a raised exception's message) and
`extract` (`_extract_sql`, whose behaviour is that of the `re` module on
the two extraction patterns; it yields `none` or a stripped SQL string).
`SCHEMA_PROMPT` (a fixed page of prose in `schema_prompt.py`) is carried as
the `schema_prompt` argument.  Geography bounding-box numbers reach the
pipeline only through their string rendering into the prompt, so the
geography dict is carried with rendered coordinate fields. -/

structure Settings where
  QUERY_LLM_PROVIDER : String := "deepseek"
  QUERY_LLM_MODEL : String := "deepseek-reasoner"
  QUERY_MAX_RETRIES : Nat := 3
  DEEPSEEK_API_KEY : Option String := none
  QWEN_API_KEY : Option String := none
  GEMMA_API_KEY : Option String := none
  OPENAI_API_KEY : Option String := none
  DEEPSEEK_BASE_URL : Option String := none
  QWEN_BASE_URL : Option String := none
  GEMMA_BASE_URL : Option String := none
deriving Repr

structure PipelineResult where
  sql : Option String := none
  error : Option String := none
  retries_used : Nat := 0
  validation_errors : List String := []
  provider : String := ""
  model : String := ""
deriving Repr, DecidableEq

structure ProviderConfig where
  key_attr : String
  base_url_attr : Option String
  default_model : String
deriving Repr, DecidableEq

/-- Model of `_PROVIDER_CONFIG` (insertion-ordered dict). -/
def PROVIDER_CONFIG : List (String × ProviderConfig) :=
  [("deepseek", ⟨"DEEPSEEK_API_KEY", some "DEEPSEEK_BASE_URL", "deepseek-reasoner"⟩),
   ("qwen", ⟨"QWEN_API_KEY", some "QWEN_BASE_URL", "qwq-32b"⟩),
   ("gemma", ⟨"GEMMA_API_KEY", some "GEMMA_BASE_URL", "gemma3"⟩),
   ("openai", ⟨"OPENAI_API_KEY", none, "gpt-4o"⟩)]

/-- Model of `getattr(settings, attr, None)` for the attribute names the provider
table stores. -/
def getSettingsAttr (settings : Settings) (attr : String) : Option String :=
  if attr == "DEEPSEEK_API_KEY" then settings.DEEPSEEK_API_KEY
  else if attr == "QWEN_API_KEY" then settings.QWEN_API_KEY
  else if attr == "GEMMA_API_KEY" then settings.GEMMA_API_KEY
  else if attr == "OPENAI_API_KEY" then settings.OPENAI_API_KEY
  else none

/-- Model of `get_llm_client(provider, settings)` : `ValueError` (as `.error`) on an
unknown provider or a missing/empty API key, otherwise a configured client
(carried as `Unit` — its network behaviour is the `llm` parameter). -/
def get_llm_client (provider : String) (settings : Settings) :
    Except String Unit :=
  let provider := pyStrip (pyLower provider)
  match assocLookup PROVIDER_CONFIG provider with
  | none =>
    .error ("Unknown LLM provider: '" ++ provider ++
      "'. Supported: deepseek, qwen, gemma, openai")
  | some config =>
    let api_key := getSettingsAttr settings config.key_attr
    if api_key.getD "" == "" then
      .error ("API key not configured for provider '" ++ provider ++
        "'. Set the " ++ config.key_attr ++ " environment variable.")
    else .ok ()

/-- Model of `_get_model(provider, model_override, settings)`. -/
def get_model (provider : String) (model_override : Option String)
    (settings : Settings) : String :=
  if model_override.getD "" == "" then
    if pyLower provider == pyLower settings.QUERY_LLM_PROVIDER then
      settings.QUERY_LLM_MODEL
    else
      ((assocLookup PROVIDER_CONFIG (pyLower provider)).map
        ProviderConfig.default_model).getD "gpt-4o"
  else model_override.getD ""

structure LlmMessage where
  role : String
  content : String
deriving Repr, DecidableEq

/-- The geography dict as the prompt assembly consumes it (coordinates
already rendered to text). -/
structure GeoContext where
  name : String
  lat_min : String
  lat_max : String
  lon_min : String
  lon_max : String
deriving Repr, DecidableEq

/-- Model of `_build_messages(query, context, geography, validation_error)`. -/
def build_messages (schema_prompt query : String) (context : List ContextTurn)
    (geography : Option GeoContext) (validation_error : Option String) :
    List LlmMessage :=
  let messages : List LlmMessage := [⟨"system", schema_prompt⟩]
  let messages := match geography with
    | some g => messages ++
      [⟨"system", "\n[Geography detected: " ++ g.name ++ "]\n" ++
        "Bounding box: lat " ++ g.lat_min ++ "–" ++ g.lat_max ++
        ", lon " ++ g.lon_min ++ "–" ++ g.lon_max ++
        "\nUse these coordinates for spatial filtering."⟩]
    | none => messages
  let messages := messages ++ context.map (fun turn =>
    let content :=
      if turn.role == "assistant" && !(turn.sql.getD "" == "") then
        turn.content ++ "\n\nSQL generated:\n```sql\n" ++
          turn.sql.getD "" ++ "\n```"
      else turn.content
    (⟨turn.role, content⟩ : LlmMessage))
  let user_msg :=
    if validation_error.getD "" == "" then query
    else query ++ "\n\n[RETRY] Your previous SQL had a validation error:\n" ++
      validation_error.getD "" ++
      "\nPlease fix the issue and generate corrected SQL."
  messages ++ [⟨"user", user_msg⟩]

/-- Message shown when no SQL could be extracted from the response. -/
def extractionFailureMsg : String :=
  "Could not extract a SQL statement from your response. " ++
  "Please return the SQL inside a ```sql ... ``` code block."

/-- The `for attempt in range(max_retries)` loop of `nl_to_sql`, by
recursion on the remaining attempts (`attempt = max_retries - remaining`).
`acc` carries the mutated `result`; `validation_error` the error fed back
into the next prompt. -/
def pipelineLoop (llm : Nat → List LlmMessage → Except String String)
    (extract : String → Option String)
    (validate : String → ValidationResult)
    (schema_prompt query : String) (context : List ContextTurn)
    (geography : Option GeoContext) (max_retries : Nat) :
    Nat → Option String → PipelineResult → PipelineResult
  | 0, _, acc =>
    { acc with
      error := some ("SQL generation failed after " ++ toString max_retries ++
        " attempts. Validation errors: " ++
        String.intercalate "; " (pySliceFrom (-3) acc.validation_errors))
      retries_used := max_retries }
  | remaining + 1, validation_error, acc =>
    let attempt := max_retries - (remaining + 1)
    let acc := { acc with retries_used := attempt }
    let messages :=
      build_messages schema_prompt query context geography validation_error
    match llm attempt messages with
    | .error exc => { acc with error := some ("LLM call failed: " ++ exc) }
    | .ok response_text =>
      let sql := (extract response_text).getD ""
      if sql == "" then
        pipelineLoop llm extract validate schema_prompt query context geography
          max_retries remaining (some extractionFailureMsg)
          { acc with validation_errors :=
              acc.validation_errors ++ [extractionFailureMsg] }
      else
        let vr := validate sql
        if vr.valid then { acc with sql := some sql, retries_used := attempt }
        else
          let ve := if vr.error.getD "" == "" then "Unknown validation error"
            else vr.error.getD ""
          pipelineLoop llm extract validate schema_prompt query context geography
            max_retries remaining (some ve)
            { acc with validation_errors := acc.validation_errors ++ [ve] }

/-- Model of `nl_to_sql(query, context, geography, settings, provider, model)` :
resolve provider and model, build the client, then run the retry loop.
Validation inside the loop is `validate_sql` with the default whitelist. -/
def nl_to_sql (parse : String → Except String (List (Option Expression)))
    (render : Expression → String)
    (llm : Nat → List LlmMessage → Except String String)
    (extract : String → Option String)
    (schema_prompt query : String) (context : List ContextTurn)
    (geography : Option GeoContext) (settings : Settings)
    (provider model : Option String) : PipelineResult :=
  let active_provider := pyStrip (pyLower
    (if provider.getD "" == "" then settings.QUERY_LLM_PROVIDER
     else provider.getD ""))
  let active_model := get_model active_provider model settings
  let max_retries := settings.QUERY_MAX_RETRIES
  let base : PipelineResult :=
    { provider := active_provider, model := active_model }
  match get_llm_client active_provider settings with
  | .error e => { base with error := some e }
  | .ok _ =>
    pipelineLoop llm extract
      (fun s => validate_sql parse render s ALLOWED_TABLES)
      schema_prompt query context geography max_retries max_retries none base

/-- Every SQL the retry loop hands back has passed its validator. -/
theorem pipelineLoop_sql_validated
    (llm : Nat → List LlmMessage → Except String String)
    (extract : String → Option String)
    (validate : String → ValidationResult)
    (schema_prompt query : String) (context : List ContextTurn)
    (geography : Option GeoContext) (max_retries : Nat) :
    ∀ (remaining : Nat) (validation_error : Option String)
      (acc : PipelineResult) (s : String), acc.sql = none →
      (pipelineLoop llm extract validate schema_prompt query context geography
        max_retries remaining validation_error acc).sql = some s →
      (validate s).valid = true := by
  intro remaining
  induction remaining with
  | zero =>
    intro validation_error acc s hacc hres
    simp only [pipelineLoop] at hres
    rw [hacc] at hres
    cases hres
  | succ r ih =>
    intro validation_error acc s hacc hres
    simp only [pipelineLoop] at hres
    cases hllm : llm (max_retries - (r + 1))
        (build_messages schema_prompt query context geography
          validation_error) with
    | error exc =>
      rw [hllm] at hres
      simp only at hres
      rw [hacc] at hres
      cases hres
    | ok response_text =>
      rw [hllm] at hres
      simp only at hres
      by_cases hsql : ((extract response_text).getD "" == "") = true
      · rw [if_pos hsql] at hres
        exact ih _ _ s (by simpa using hacc) hres
      · rw [if_neg hsql] at hres
        by_cases hvalid :
            (validate ((extract response_text).getD "")).valid = true
        · rw [if_pos hvalid] at hres
          simp only at hres
          have hs : (extract response_text).getD "" = s := by
            injection hres
          rw [← hs]
          exact hvalid
        · rw [if_neg hvalid] at hres
          exact ih _ _ s (by simpa using hacc) hres

/-- C1: whenever the pipeline returns a SQL string, `validate_sql` on that
exact string (with the default whitelist and the very parser the pipeline
validated with) passes all checks — no SQL reaches the caller without
passing validation. -/
theorem nl_to_sql_never_unvalidated
    (parse : String → Except String (List (Option Expression)))
    (render : Expression → String)
    (llm : Nat → List LlmMessage → Except String String)
    (extract : String → Option String)
    (schema_prompt query : String) (context : List ContextTurn)
    (geography : Option GeoContext) (settings : Settings)
    (provider model : Option String) (s : String)
    (h : (nl_to_sql parse render llm extract schema_prompt query context
      geography settings provider model).sql = some s) :
    (validate_sql parse render s ALLOWED_TABLES).valid = true := by
  simp only [nl_to_sql] at h
  split at h
  · simp at h
  · exact pipelineLoop_sql_validated llm extract
      (fun t => validate_sql parse render t ALLOWED_TABLES)
      schema_prompt query context geography settings.QUERY_MAX_RETRIES
      settings.QUERY_MAX_RETRIES none _ s rfl h

/-- Concatenation with a non-empty left part is non-empty. -/
theorem append_ne_empty_left (s t : String) (h : s ≠ "") : s ++ t ≠ "" := by
  cases s with
  | mk sd =>
    cases t with
    | mk td =>
      intro he
      apply h
      have hdata : sd ++ td = ([] : List Char) := congrArg String.data he
      have hnil : sd = [] := (List.append_eq_nil.mp hdata).1
      subst hnil
      rfl

/-- Both `ValueError` messages of `get_llm_client` are non-empty. -/
theorem get_llm_client_error_ne (provider : String) (settings : Settings)
    (e : String) (h : get_llm_client provider settings = .error e) :
    e ≠ "" := by
  simp only [get_llm_client] at h
  split at h
  · injection h with h2
    rw [← h2]
    exact append_ne_empty_left _ _ (append_ne_empty_left _ _ (by decide))
  · split at h
    · injection h with h2
      rw [← h2]
      exact append_ne_empty_left _ _ (append_ne_empty_left _ _
        (append_ne_empty_left _ _ (append_ne_empty_left _ _ (by decide))))
    · cases h

/-- Exactly one of `sql` / `error` is populated: success carries a non-empty
SQL string and no error; failure carries a non-empty error and no SQL. -/
def ExactlyOneOutcome (r : PipelineResult) : Prop :=
  ((∃ s, r.sql = some s ∧ s ≠ "") ∧ r.error = none) ∨
  ((∃ e, r.error = some e ∧ e ≠ "") ∧ r.sql = none)

/-- The retry loop always lands in exactly one of the two outcomes when it
starts from a blank result. -/
theorem pipelineLoop_outcome
    (llm : Nat → List LlmMessage → Except String String)
    (extract : String → Option String)
    (validate : String → ValidationResult)
    (schema_prompt query : String) (context : List ContextTurn)
    (geography : Option GeoContext) (max_retries : Nat) :
    ∀ (remaining : Nat) (validation_error : Option String)
      (acc : PipelineResult), acc.sql = none → acc.error = none →
      ExactlyOneOutcome (pipelineLoop llm extract validate schema_prompt query
        context geography max_retries remaining validation_error acc) := by
  intro remaining
  induction remaining with
  | zero =>
    intro validation_error acc hsql herr
    refine Or.inr ⟨⟨_, rfl, ?_⟩, by simpa [pipelineLoop] using hsql⟩
    exact append_ne_empty_left _ _ (append_ne_empty_left _ _
      (append_ne_empty_left _ _ (by decide)))
  | succ r ih =>
    intro validation_error acc hsql herr
    simp only [pipelineLoop]
    split
    · refine Or.inr ⟨⟨_, rfl, ?_⟩, by simpa using hsql⟩
      exact append_ne_empty_left _ _ (by decide)
    · rename_i response_text heq
      split
      · exact ih _ _ (by simpa using hsql) (by simpa using herr)
      · rename_i hext
        split
        · refine Or.inl ⟨⟨_, rfl, ?_⟩, by simpa using herr⟩
          simpa using hext
        · exact ih _ _ (by simpa using hsql) (by simpa using herr)

/-- C10: every pipeline run sets exactly one of `sql` and `error` — a
non-empty SQL string with no error on every success path, a non-empty error
message with no SQL on every failure path (unknown provider, missing key,
LLM throw, extraction failure, validation retry exhaustion). -/
theorem nl_to_sql_exactly_one_outcome
    (parse : String → Except String (List (Option Expression)))
    (render : Expression → String)
    (llm : Nat → List LlmMessage → Except String String)
    (extract : String → Option String)
    (schema_prompt query : String) (context : List ContextTurn)
    (geography : Option GeoContext) (settings : Settings)
    (provider model : Option String) :
    ExactlyOneOutcome (nl_to_sql parse render llm extract schema_prompt query
      context geography settings provider model) := by
  simp only [nl_to_sql]
  split
  · rename_i e heq
    exact Or.inr ⟨⟨e, rfl, get_llm_client_error_ne _ _ e heq⟩, rfl⟩
  · rename_i u heq
    exact pipelineLoop_outcome llm extract
      (fun t => validate_sql parse render t ALLOWED_TABLES)
      schema_prompt query context geography settings.QUERY_MAX_RETRIES
      settings.QUERY_MAX_RETRIES none _ rfl rfl

/-! Concrete oracles exercising the pipeline on one successful run. -/

def demoParse : String → Except String (List (Option Expression)) :=
  fun _ => .ok [some (.mk .select "" "" [])]

def demoRender : Expression → String := fun _ => ""

def demoLlm : Nat → List LlmMessage → Except String String :=
  fun _ _ => .ok "SELECT 1"

def demoExtract : String → Option String := fun t => some t

def demoSettings : Settings := { DEEPSEEK_API_KEY := some "key" }

/-- Witness for C1: on a run whose LLM answers `SELECT 1` (parsed by the
oracle as a single bare SELECT statement), the pipeline returns that SQL,
and the theorem yields that `validate_sql` passes on it. -/
theorem nl_to_sql_never_unvalidated_witness :
    (validate_sql demoParse demoRender "SELECT 1" ALLOWED_TABLES).valid = true :=
  nl_to_sql_never_unvalidated demoParse demoRender demoLlm demoExtract
    "" "q" [] none demoSettings none none "SELECT 1" (by rfl)

/-! ## Chat API orchestration (`app/api/v1/chat.py`)

The `chat_messages` rows (migration `004_chat_interface`) are modelled with
opaque numeric ids standing for the UUIDs (UUID parsing is external; the
endpoints' 400-on-malformed-uuid guard precedes everything modelled here,
and the claims concern the post-parse behaviour).  The enclosing session is
taken as already validated active (`_get_active_session`). -/

structure ChatMessageRow where
  message_id : Nat
  session_id : Nat
  role : String := "user"
  content : String := ""
  nl_query : Option String := none
  generated_sql : Option String := none
  status : String := ""
  created_at : Nat := 0
deriving Repr, DecidableEq

inductive ConfirmOutcome where
  | httpError (status : Nat) (detail : String)
  | stream (sql : String)
deriving Repr, DecidableEq

/-- The lookup-and-guard phase of `confirm_query` : one `scalar_one_or_none`
select filtered on message id, session id AND status `pending_confirmation`
(message_id is the primary key, so at most one row matches), 404 when it
returns no row, 400 when the pending row has no stored SQL, otherwise the
confirmation stream proceeds with the stored SQL. -/
def confirm_query_lookup (messages : List ChatMessageRow)
    (session_id message_id : Nat) : ConfirmOutcome :=
  match messages.find? (fun m => m.message_id == message_id &&
      m.session_id == session_id && m.status == "pending_confirmation") with
  | none => .httpError 404 "Pending confirmation message not found"
  | some pending_msg =>
    if pending_msg.generated_sql.getD "" == "" then
      .httpError 400 "No SQL found on the pending message"
    else .stream (pending_msg.generated_sql.getD "")

/-- C4 (amended): the confirm endpoint answers 404 whenever no
pending-confirmation message with the given id exists in the session —
including when a message with that id exists with a different status — and
400 only when the pending message exists but carries no SQL; with SQL
present, the confirmation stream proceeds on it. -/
theorem confirm_query_status_codes :
    (∀ (messages : List ChatMessageRow) (sid mid : Nat),
      messages.find? (fun m => m.message_id == mid && m.session_id == sid &&
        m.status == "pending_confirmation") = none →
      confirm_query_lookup messages sid mid =
        .httpError 404 "Pending confirmation message not found")
    ∧ (∀ (messages : List ChatMessageRow) (sid mid : Nat)
        (m : ChatMessageRow),
      messages.find? (fun m => m.message_id == mid && m.session_id == sid &&
        m.status == "pending_confirmation") = some m →
      (m.generated_sql.getD "" = "" →
        confirm_query_lookup messages sid mid =
          .httpError 400 "No SQL found on the pending message")
      ∧ (m.generated_sql.getD "" ≠ "" →
        confirm_query_lookup messages sid mid =
          .stream (m.generated_sql.getD ""))) := by
  constructor
  · intro messages sid mid hnone
    simp [confirm_query_lookup, hnone]
  · intro messages sid mid m hsome
    constructor
    · intro hempty
      simp [confirm_query_lookup, hsome, hempty]
    · intro hne
      simp [confirm_query_lookup, hsome, hne]

/-- A message of the counterexample: it exists under its id in the session,
carries SQL, but its status is `completed`, not `pending_confirmation`. -/
def confirmCexMsg : ChatMessageRow :=
  { message_id := 1, session_id := 7, role := "assistant", content := "done",
    generated_sql := some "SELECT 1", status := "completed", created_at := 5 }

/-- C4 (counterexample to the claim as stated): a message with the given id
exists in the session, its status is not `pending_confirmation`, and it even
has SQL — yet the endpoint answers 404, not the claimed 400. -/
theorem confirm_query_wrong_status_cex :
    ([confirmCexMsg].find? (fun m => m.message_id == 1 &&
      m.session_id == 7)).isSome = true
    ∧ confirmCexMsg.status = "completed"
    ∧ confirmCexMsg.generated_sql = some "SELECT 1"
    ∧ confirm_query_lookup [confirmCexMsg] 7 1 =
        ConfirmOutcome.httpError 404 "Pending confirmation message not found"
    ∧ confirm_query_lookup [confirmCexMsg] 7 1 ≠
        ConfirmOutcome.httpError 400 "No SQL found on the pending message" := by
  refine ⟨by decide, by decide, by decide, by decide, by decide⟩

/-! ### The SSE query turn (`query_sse`) : message persistence and
`message_count` accounting.

The endpoint persists and commits the user message before the event stream
starts (lines 393–402).  The stream then takes exactly one of five exits.
Four persist one assistant-role row: generation failure (`status "error"`,
`message_count += 1`), pending confirmation (`status
"pending_confirmation"`, `+= 1`), execution error (`status "error"`,
`+= 1`), completion (`status "completed"`, `+= 2`).  The fifth is the
catch-all `except Exception` around the whole generator (lines 599–608):
it emits `error` and `done` events but persists no assistant row and never
touches `message_count`. -/

inductive TurnOutcome where
  | generationFailure | pendingConfirmation | executionError | completed
  | unexpectedException
deriving Repr, DecidableEq

/-- One `query_sse` turn: the session's message rows and `message_count`
before the turn, the user and assistant rows persisted by the turn, and the
exit taken by the stream. -/
def turnAssistantRow (assistant_msg : ChatMessageRow) (st : String) :
    ChatMessageRow :=
  { assistant_msg with role := "assistant", status := st }

def query_sse_turn (messages : List ChatMessageRow) (message_count : Int)
    (user_msg assistant_msg : ChatMessageRow) (outcome : TurnOutcome) :
    List ChatMessageRow × Int :=
  let messages := messages ++ [user_msg]
  match outcome with
  | .generationFailure =>
    (messages ++ [turnAssistantRow assistant_msg "error"], message_count + 1)
  | .pendingConfirmation =>
    (messages ++ [turnAssistantRow assistant_msg "pending_confirmation"],
     message_count + 1)
  | .executionError =>
    (messages ++ [turnAssistantRow assistant_msg "error"], message_count + 1)
  | .completed =>
    (messages ++ [turnAssistantRow assistant_msg "completed"],
     message_count + 2)
  | .unexpectedException => (messages, message_count)

/-- C5 (amended): the user row is persisted on every SSE query turn, and
then a completed exit persists one assistant row and grows `message_count`
by 2; the generation-failure, execution-error and pending-confirmation
exits persist one assistant row but grow `message_count` only by 1; the
catch-all exception exit persists no assistant row and leaves
`message_count` unchanged — so only on completed turns does the increment
equal the number of rows the turn persisted, and on every other exit the
counter falls short of the persisted rows. -/
theorem query_sse_turn_accounting :
    ∀ (messages : List ChatMessageRow) (message_count : Int)
      (user_msg assistant_msg : ChatMessageRow) (outcome : TurnOutcome),
      (query_sse_turn messages message_count user_msg assistant_msg
        outcome).1.length = messages.length +
        (if outcome = .unexpectedException then 1 else 2)
      ∧ (query_sse_turn messages message_count user_msg assistant_msg
          outcome).2 =
        (if outcome = .completed then message_count + 2
         else if outcome = .unexpectedException then message_count
         else message_count + 1) := by
  intro messages message_count user_msg assistant_msg outcome
  cases outcome <;> simp [query_sse_turn]

/-- C5 (counterexample to the claim as stated): a generation-failure turn on
a fresh session persists 2 rows but increments `message_count` by 1, so the
counter (1) differs from the number of persisted messages (2). -/
theorem query_sse_message_count_cex :
    (query_sse_turn [] 0 { message_id := 10, session_id := 3 }
      { message_id := 11, session_id := 3 }
      TurnOutcome.generationFailure).1.length = 2
    ∧ (query_sse_turn [] 0 { message_id := 10, session_id := 3 }
      { message_id := 11, session_id := 3 }
      TurnOutcome.generationFailure).2 = 1
    ∧ (1 : Int) ≠ 2 := by
  refine ⟨by decide, by decide, by decide⟩

/-! ### Message listing (`get_messages`) : cursor pagination. -/

/-- Stable insertion by `created_at`, newest first (the DB's
`ORDER BY created_at DESC`). -/
def msgInsertByCreated (x : ChatMessageRow) :
    List ChatMessageRow → List ChatMessageRow
  | [] => [x]
  | y :: ys =>
    if x.created_at ≤ y.created_at then y :: msgInsertByCreated x ys
    else x :: y :: ys

def sortByCreatedDesc (l : List ChatMessageRow) : List ChatMessageRow :=
  l.foldl (fun acc x => msgInsertByCreated x acc) []

/-- Model of `get_messages(session_id, before_message_id, limit)` on an active
session, after uuid parsing; `page_size` is `min(limit,
CHAT_MESSAGE_PAGE_SIZE)`.  The cursor row is looked up by message id alone
(no session filter); 404 only when no such row exists at all.  The page is
the last `page_size` messages of the session (strictly before the cursor's
`created_at` when a cursor is given), reversed back to ascending order. -/
inductive PageResult where
  | httpError (status : Nat) (detail : String)
  | page (messages : List ChatMessageRow)
deriving Repr, DecidableEq

def get_messages (messages : List ChatMessageRow) (session_id : Nat)
    (before_message_id : Option Nat) (page_size : Nat) : PageResult :=
  match before_message_id with
  | none =>
    .page (((sortByCreatedDesc
      (messages.filter (fun m => m.session_id == session_id))).take
        page_size).reverse)
  | some cursor =>
    match (messages.find? (fun m => m.message_id == cursor)).map
        ChatMessageRow.created_at with
    | none => .httpError 404 "Cursor message not found"
    | some cursor_created =>
      .page (((sortByCreatedDesc
        (messages.filter (fun m => m.session_id == session_id &&
          m.created_at < cursor_created))).take page_size).reverse)

/-- C6 (amended): the cursor lookup ignores session ownership — 404 exactly
when no message with the cursor id exists at all; when it exists (in this
session or any other), its `created_at` is used and a page is returned. -/
theorem get_messages_cursor_behavior :
    (∀ (messages : List ChatMessageRow) (sid cursor page_size : Nat),
      messages.find? (fun m => m.message_id == cursor) = none →
      get_messages messages sid (some cursor) page_size =
        .httpError 404 "Cursor message not found")
    ∧ (∀ (messages : List ChatMessageRow) (sid cursor page_size : Nat)
        (m : ChatMessageRow),
      messages.find? (fun m => m.message_id == cursor) = some m →
      get_messages messages sid (some cursor) page_size =
        .page (((sortByCreatedDesc
          (messages.filter (fun x => x.session_id == sid &&
            x.created_at < m.created_at))).take page_size).reverse)) := by
  constructor
  · intro messages sid cursor page_size hnone
    simp [get_messages, hnone]
  · intro messages sid cursor page_size m hsome
    simp [get_messages, hsome]

/-- C6 (counterexample to the claim as stated): the only message belongs to
session 2, the listing is for session 1 with that message as cursor — the
endpoint returns an (empty) page, not the claimed 404. -/
theorem get_messages_foreign_cursor_cex :
    ({ message_id := 42, session_id := 2, created_at := 5 } :
      ChatMessageRow).session_id ≠ 1
    ∧ get_messages [{ message_id := 42, session_id := 2, created_at := 5 }]
        1 (some 42) 50 = .page []
    ∧ get_messages [{ message_id := 42, session_id := 2, created_at := 5 }]
        1 (some 42) 50 ≠ .httpError 404 "Cursor message not found" := by
  refine ⟨by decide, by decide, by decide⟩
